import Mathlib

/-!
Verification of the LLM-output reconciliation pipeline of the
Video_seo_generator repository (`src/utils/seo_agents.py` and
`src/analysis_function.py`).

Python strings are modelled as `List Char` where character-level reasoning is
needed (the JSON extraction code) and as Lean `String` elsewhere; Python
dictionaries (in JSON position) are ordered association lists, matching the
insertion-ordered semantics of Python `dict`; a Python function that can raise
is modelled with `Option`/`Except`, `none`/`.error` standing for the raised
exception.  JSON numbers are modelled as integers (the float side of JSON is
out of scope; no value handled by the claims is fractional).
-/

namespace VideoSeo

/-- A JSON value, as produced by `json.loads`.  Objects keep insertion order,
like Python dictionaries. -/
inductive Json where
  | null : Json
  | bool (b : Bool) : Json
  | num (n : Int) : Json
  | str (s : String) : Json
  | arr (elems : List Json) : Json
  | obj (members : List (String × Json)) : Json

/-- Hexadecimal digit (lower case), for the `\uXXXX` escapes of `json.dumps`. -/
def hexDigit (n : Nat) : Char :=
  if n < 10 then Char.ofNat ('0'.toNat + n) else Char.ofNat ('a'.toNat + (n - 10))

/-- Four-digit lower-case hex rendering of a code unit, as in `\uXXXX`. -/
def hex4 (n : Nat) : List Char :=
  [hexDigit (n / 4096 % 16), hexDigit (n / 256 % 16), hexDigit (n / 16 % 16), hexDigit (n % 16)]

/-- Escape of one character inside a JSON string literal, following
`json.dumps` with its default `ensure_ascii=True`: printable ASCII other than
`"` and `\` is kept, the two-character short escapes are used where they
exist, everything else becomes `\uXXXX` (a surrogate pair beyond the BMP). -/
def escChar (c : Char) : List Char :=
  if c = '"' then ['\\', '"']
  else if c = '\\' then ['\\', '\\']
  else if c = '\n' then ['\\', 'n']
  else if c = '\r' then ['\\', 'r']
  else if c = '\t' then ['\\', 't']
  else if c = '\x08' then ['\\', 'b']
  else if c = '\x0c' then ['\\', 'f']
  else if c.toNat < 0x20 ∨ 0x7e < c.toNat then
    if c.toNat < 0x10000 then '\\' :: 'u' :: hex4 c.toNat
    else
      let v := c.toNat - 0x10000
      ('\\' :: 'u' :: hex4 (0xd800 + v / 0x400)) ++ ('\\' :: 'u' :: hex4 (0xdc00 + v % 0x400))
  else [c]

/-- JSON string literal for `s`, quotes included, as written by `json.dumps`. -/
def encStr (s : String) : List Char :=
  '"' :: (s.toList.flatMap escChar) ++ ['"']

mutual

/-- Serialization of a JSON value, following `json.dumps` with its default
separators `", "` and `": "` and `ensure_ascii=True`. -/
def dumps : Json → List Char
  | .null => "null".toList
  | .bool true => "true".toList
  | .bool false => "false".toList
  | .num n => (toString n).toList
  | .str s => encStr s
  | .arr xs => '[' :: dumpsArr xs ++ [']']
  | .obj ms => '\x7b' :: dumpsObj ms ++ ['\x7d']

/-- Comma-separated serialization of array elements. -/
def dumpsArr : List Json → List Char
  | [] => []
  | [x] => dumps x
  | x :: y :: xs => dumps x ++ ',' :: ' ' :: dumpsArr (y :: xs)

/-- Comma-separated serialization of object members, `key: value` style. -/
def dumpsObj : List (String × Json) → List Char
  | [] => []
  | [(k, v)] => encStr k ++ ':' :: ' ' :: dumps v
  | (k, v) :: m :: ms => encStr k ++ ':' :: ' ' :: dumps v ++ ',' :: ' ' :: dumpsObj (m :: ms)

end

/-- Whitespace accepted by the JSON grammar (`json.decoder`). -/
def isJsonWs (c : Char) : Bool :=
  ([' ', '\t', '\n', '\r'] : List Char).contains c

/-- Drop leading JSON whitespace. -/
def eatWs (cs : List Char) : List Char :=
  match cs with
  | [] => []
  | c :: rest => if isJsonWs c then eatWs rest else cs

/-- Numeric value of a hexadecimal digit, if any. -/
def hexDigitVal (c : Char) : Option Nat :=
  let n := c.toNat
  if 48 ≤ n ∧ n ≤ 57 then some (n - 48)
  else if 97 ≤ n ∧ n ≤ 102 then some (n - 87)
  else if 65 ≤ n ∧ n ≤ 70 then some (n - 55)
  else none

/-- Four hex digits, as in a `\uXXXX` escape. -/
def hex4Val : List Char → Option (Nat × List Char)
  | a :: b :: c :: d :: rest => do
    let x ← hexDigitVal a
    let y ← hexDigitVal b
    let z ← hexDigitVal c
    let w ← hexDigitVal d
    pure (x * 4096 + y * 256 + z * 16 + w, rest)
  | _ => none

/-- Decimal digit test. -/
def isDig (c : Char) : Bool := 48 ≤ c.toNat && c.toNat ≤ 57

/-- Longest run of decimal digits at the front. -/
def takeDigs (cs : List Char) : List Char × List Char :=
  match cs with
  | [] => ([], [])
  | d :: rest =>
    if isDig d then
      match takeDigs rest with
      | (ds, r) => (d :: ds, r)
    else ([], cs)

/-- Natural value of a digit run. -/
def digsToNat (ds : List Char) : Nat :=
  ds.foldl (fun acc c => acc * 10 + (c.toNat - '0'.toNat)) 0

/-- Insert `(k, v)` into an insertion-ordered association list the way Python
`dict` assignment does: an existing key keeps its position and gets the new
value, a new key goes to the back. -/
def objInsert (ms : List (String × Json)) (k : String) (v : Json) : List (String × Json) :=
  match ms with
  | [] => [(k, v)]
  | (k', v') :: rest => if k' == k then (k', v) :: rest else (k', v') :: objInsert rest k v

/-- JSON number at the front of the input, restricted to the integer part of
the grammar (`-?(0|[1-9][0-9]*)`): a fractional or exponent continuation
yields `none`, since floats are outside the model. -/
def jNum (cs : List Char) : Option (Json × List Char) :=
  let (neg, body) :=
    match cs with
    | '-' :: rest => (true, rest)
    | _ => (false, cs)
  match body with
  | '0' :: rest =>
    match rest with
    | '.' :: _ => none
    | 'e' :: _ => none
    | 'E' :: _ => none
    | _ => some (.num 0, rest)
  | c :: _ =>
    if isDig c ∧ c ≠ '0' then
      let (ds, r) := takeDigs body
      match r with
      | '.' :: _ => none
      | 'e' :: _ => none
      | 'E' :: _ => none
      | _ =>
        let v : Int := (digsToNat ds : Int)
        some (.num (if neg then -v else v), r)
    else none
  | [] => none

mutual

/-- JSON value at the front of the input (no leading whitespace expected),
following `json.decoder`'s scanner; returns the value and the remaining
input.  Fuel only forces termination; `loads` supplies enough of it. -/
def jValue : Nat → List Char → Option (Json × List Char)
  | 0, _ => none
  | fuel + 1, cs =>
    match cs with
    | '"' :: rest =>
      match jStr fuel rest with
      | some (content, r) => some (.str (String.mk content), r)
      | none => none
    | '\x7b' :: rest =>
      let r := eatWs rest
      match r with
      | '\x7d' :: r2 => some (.obj [], r2)
      | _ => jObjLoop fuel [] r
    | '[' :: rest =>
      let r := eatWs rest
      match r with
      | ']' :: r2 => some (.arr [], r2)
      | _ => jArrLoop fuel [] r
    | 't' :: 'r' :: 'u' :: 'e' :: rest => some (.bool true, rest)
    | 'f' :: 'a' :: 'l' :: 's' :: 'e' :: rest => some (.bool false, rest)
    | 'n' :: 'u' :: 'l' :: 'l' :: rest => some (.null, rest)
    | c :: _ => if c = '-' ∨ isDig c then jNum cs else none
    | [] => none

/-- Contents of a JSON string literal after the opening quote, decoding the
escapes the way `json.loads` does; consumes the closing quote.  Unescaped
control characters are rejected (strict mode), and so are lone surrogate
escapes (a modelling restriction: Lean characters are unicode scalars). -/
def jStr : Nat → List Char → Option (List Char × List Char)
  | 0, _ => none
  | fuel + 1, cs =>
    match cs with
    | '"' :: rest => some ([], rest)
    | '\\' :: e :: rest =>
      match e with
      | '"' => (jStr fuel rest).map (fun (s, r) => ('"' :: s, r))
      | '\\' => (jStr fuel rest).map (fun (s, r) => ('\\' :: s, r))
      | '/' => (jStr fuel rest).map (fun (s, r) => ('/' :: s, r))
      | 'b' => (jStr fuel rest).map (fun (s, r) => ('\x08' :: s, r))
      | 'f' => (jStr fuel rest).map (fun (s, r) => ('\x0c' :: s, r))
      | 'n' => (jStr fuel rest).map (fun (s, r) => ('\n' :: s, r))
      | 'r' => (jStr fuel rest).map (fun (s, r) => ('\r' :: s, r))
      | 't' => (jStr fuel rest).map (fun (s, r) => ('\t' :: s, r))
      | 'u' =>
        match hex4Val rest with
        | none => none
        | some (v, r) =>
          if 0xd800 ≤ v ∧ v ≤ 0xdbff then
            match r with
            | '\\' :: 'u' :: r2 =>
              match hex4Val r2 with
              | some (w, r3) =>
                if 0xdc00 ≤ w ∧ w ≤ 0xdfff then
                  let cp := 0x10000 + (v - 0xd800) * 0x400 + (w - 0xdc00)
                  (jStr fuel r3).map (fun (s, r4) => (Char.ofNat cp :: s, r4))
                else none
              | none => none
            | _ => none
          else if 0xdc00 ≤ v ∧ v ≤ 0xdfff then none
          else (jStr fuel r).map (fun (s, r2) => (Char.ofNat v :: s, r2))
      | _ => none
    | c :: rest =>
      if c.toNat < 0x20 then none
      else (jStr fuel rest).map (fun (s, r) => (c :: s, r))
    | [] => none

/-- Array elements from the position of the next value; `acc` holds the
elements already read, in order. -/
def jArrLoop : Nat → List Json → List Char → Option (Json × List Char)
  | 0, _, _ => none
  | fuel + 1, acc, cs =>
    match jValue fuel cs with
    | none => none
    | some (v, r) =>
      match eatWs r with
      | ']' :: r2 => some (.arr (acc ++ [v]), r2)
      | ',' :: r2 => jArrLoop fuel (acc ++ [v]) (eatWs r2)
      | _ => none

/-- Object members from the position of the next key; duplicate keys follow
Python `dict` assignment (last value wins, first position kept). -/
def jObjLoop : Nat → List (String × Json) → List Char → Option (Json × List Char)
  | 0, _, _ => none
  | fuel + 1, acc, cs =>
    match cs with
    | '"' :: rest =>
      match jStr fuel rest with
      | none => none
      | some (key, r) =>
        match eatWs r with
        | ':' :: r2 =>
          match jValue fuel (eatWs r2) with
          | none => none
          | some (v, r3) =>
            let acc2 := objInsert acc (String.mk key) v
            match eatWs r3 with
            | '\x7d' :: r4 => some (.obj acc2, r4)
            | ',' :: r4 => jObjLoop fuel acc2 (eatWs r4)
            | _ => none
        | _ => none
    | _ => none

end

/-- Python `json.loads` on the model: a single JSON document with optional
surrounding whitespace; `none` models the raised `JSONDecodeError`. -/
def loads (cs : List Char) : Option Json :=
  match jValue (2 * cs.length + 4) (eatWs cs) with
  | some (v, rest) => if eatWs rest = [] then some v else none
  | none => none

/-- Whitespace in the sense of the regex class `\s` (its ASCII fragment),
used by the fence-extraction pattern of `parse_langchain_output`. -/
def isPySpace (c : Char) : Bool :=
  ([' ', '\t', '\n', '\r', '\x0b', '\x0c'] : List Char).contains c

/-- Strip `\s*` from both ends. -/
def trimPy (cs : List Char) : List Char :=
  ((cs.dropWhile isPySpace).reverse.dropWhile isPySpace).reverse

/-- Index of the first occurrence of `pat` (Python `str.find` for a pattern,
and the left-most-match rule of `re.search`). -/
def firstOccur (pat : List Char) : List Char → Option Nat
  | [] => if pat.isEmpty then some 0 else none
  | c :: cs =>
    if pat.isPrefixOf (c :: cs) then some 0
    else (firstOccur pat cs).map (· + 1)

/-- Python `str.find` for a single character (`none` models `-1`). -/
def pyFind (c : Char) : List Char → Option Nat
  | [] => none
  | d :: cs => if d == c then some 0 else (pyFind c cs).map (· + 1)

/-- Python `str.rfind` for a single character: the highest matching index. -/
def pyRFind (c : Char) : List Char → Option Nat
  | [] => none
  | d :: cs =>
    match pyRFind c cs with
    | some i => some (i + 1)
    | none => if d == c then some 0 else none

/-- Literal `` ```json `` of the fence pattern. -/
def fenceOpen : List Char := ['`', '`', '`', 'j', 's', 'o', 'n']

/-- Literal `` ``` `` closing a fence. -/
def fenceBar : List Char := ['`', '`', '`']

/-- Captured group of `re.search` with the pattern
`` ```json\s*([\s\S]*?)\s*``` `` (`seo_agents.parse_langchain_output`):
everything between the first `` ```json `` and the next `` ``` `` after it,
whitespace-trimmed on both sides; `none` when the pattern does not match.
The first `` ```json `` having no closing `` ``` `` after it means no later
one has either (a later `` ```json `` begins with such a `` ``` ``), so the
whole search fails then. -/
def extractFenced (cs : List Char) : Option (List Char) :=
  match firstOccur fenceOpen cs with
  | none => none
  | some i =>
    let t := cs.drop (i + 7)
    match firstOccur fenceBar t with
    | none => none
    | some k => some (trimPy (t.take k))

/-- First extraction tier of `parse_langchain_output`: fenced block, then
strict parse; any failure falls through. -/
def fencedTier (cs : List Char) : Option Json :=
  match extractFenced cs with
  | some body => loads body
  | none => none

/-- Second extraction tier of `parse_langchain_output`: the slice from the
first `\x7b` to the last `\x7d`, when the first is strictly before the last,
strictly parsed. -/
def braceTier (cs : List Char) : Option Json :=
  match pyFind '\x7b' cs, pyRFind '\x7d' cs with
  | some i, some j => if i < j then loads ((cs.drop i).take (j + 1 - i)) else none
  | _, _ => none

/-- Model of `seo_agents.parse_langchain_output`: fenced-block tier first,
brace-slice tier second, `none` for the final `raise ValueError`. -/
def parse_langchain_output (output_text : List Char) : Option Json :=
  match fencedTier output_text with
  | some j => some j
  | none => braceTier output_text

/-- Outcome of the tag top-up round trip inside `ensure_35_tags`: the
completion call and `parse_langchain_output` both sit in one `try`, so a
completion failure and an unparsable response land in the same bare
`except`; otherwise the parsed JSON value comes back. -/
inductive TopUpOutcome where
  | raised : TopUpOutcome
  | parsed (j : Json) : TopUpOutcome

/-- Synthetic placeholder tags `related_tag_{i}` for `i` from `start` to 34,
the padding loop of `ensure_35_tags`. -/
def placeholderTags (start : Nat) : List Json :=
  (List.range (35 - start)).map (fun k => Json.str ("related_tag_" ++ toString (start + k)))

/-- Value of the first list-valued key of an object, in insertion order: the
`for key in additional_tags: if isinstance(additional_tags[key], list)` scan
of `ensure_35_tags`. -/
def firstListValue : List (String × Json) → Option (List Json)
  | [] => none
  | (_, Json.arr xs) :: _ => some xs
  | _ :: ms => firstListValue ms

/-- Model of `seo_agents.ensure_35_tags` on a tag list.  35 tags pass
through; more are truncated to the first 35; fewer trigger the top-up, whose
parsed JSON is appended (a bare list, or the first list value of an object,
capped at the missing count), with the placeholder padding exactly when the
`try` block raises: a failed or unparsable top-up, or a scalar response
whose iteration/indexing raises `TypeError` — a non-empty string response
raises on its first character index, while an empty string iterates zero
times and an object with no list value finishes its scan, both leaving the
tags as they were. -/
def ensure_35_tags (tags : List Json) (topup : TopUpOutcome) : List Json :=
  if tags.length = 35 then tags
  else if tags.length < 35 then
    match topup with
    | .raised => tags ++ placeholderTags tags.length
    | .parsed (Json.arr xs) => tags ++ xs.take (35 - tags.length)
    | .parsed (Json.obj ms) =>
      match firstListValue ms with
      | some xs => tags ++ xs.take (35 - tags.length)
      | none => tags
    | .parsed (Json.str s) => if s = "" then tags else tags ++ placeholderTags tags.length
    | .parsed _ => tags ++ placeholderTags tags.length
  else
    tags.take 35

/-- Number of timestamps requested by the SEO stage
(`seo_agents.run_seo_analysis_with_langchain`, and identically
`analysis_function.analyze_video_with_groq`):
`min(15, max(5, int(minutes / 2))) if minutes > 0 else 5` with
`minutes = duration // 60`; `int(...)` truncates. -/
def num_timestamps (duration : Nat) : Nat :=
  let minutes := duration / 60
  if minutes > 0 then min 15 (max 5 (minutes / 2)) else 5

/-- Modelled from the spec: the timestamp-count formula the spec states,
`clamp(round(duration_minutes/2), 5, 15)` with 5 for a zero duration, where
`round` is Python's round-half-to-even on the half-integer
`duration_minutes / 2`. -/
def spec_timestamp_count (duration : Nat) : Nat :=
  let m := duration / 60
  let rounded := if m % 2 = 0 then m / 2 else if (m / 2) % 2 = 0 then m / 2 else m / 2 + 1
  if m = 0 then 5 else min 15 (max 5 rounded)

/-- Tag table of `seo_agents.generate_fallback_seo`, keyed by language
with the English entry as default (`TAGS_BY_LANGUAGE.get(language, ...)`). -/
def TAGS_BY_LANGUAGE (language : String) : List String :=
  match language with
  | "English" => ["youtube", "video", "tutorial", "vlog", "howto", "review", "explained", "educational", "learn", "step by step", "beginner", "advanced", "masterclass", "course", "lesson", "strategy", "technique", "demonstration", "walkthrough", "overview", "comparison", "versus", "top", "best", "recommended", "trending", "viral", "popular", "interesting", "amazing", "helpful", "useful", "informative", "detailed", "comprehensive"]
  | "Spanish" => ["youtube", "video", "tutorial", "vlog", "cómo", "reseña", "explicado", "educativo", "aprender", "paso a paso", "principiante", "avanzado", "maestría", "curso", "lección", "estrategia", "técnica", "demostración", "recorrido", "visión general", "comparación", "versus", "top", "mejor", "recomendado", "tendencia", "viral", "popular", "interesante", "asombroso", "útil", "informativo", "detallado", "integral"]
  | "French" => ["youtube", "vidéo", "tutoriel", "vlog", "comment", "critique", "expliqué", "éducatif", "apprendre", "étape par étape", "débutant", "avancé", "masterclass", "cours", "leçon", "stratégie", "technique", "démonstration", "visite guidée", "aperçu", "comparaison", "contre", "top", "meilleur", "recommandé", "tendance", "viral", "populaire", "intéressant", "incroyable", "utile", "informatif", "détaillé", "complet"]
  | "German" => ["youtube", "video", "tutorial", "vlog", "wie", "rezension", "erklärt", "lehrreich", "lernen", "schritt für schritt", "anfänger", "fortgeschritten", "meisterkurs", "kurs", "lektion", "strategie", "technik", "demonstration", "führung", "überblick", "vergleich", "gegen", "top", "beste", "empfohlen", "trend", "viral", "beliebt", "interessant", "erstaunlich", "hilfreich", "nützlich", "informativ", "detailliert", "umfassend"]
  | "Italian" => ["youtube", "video", "tutorial", "vlog", "come", "recensione", "spiegato", "educativo", "imparare", "passo dopo passo", "principiante", "avanzato", "masterclass", "corso", "lezione", "strategia", "tecnica", "dimostrazione", "guida", "panoramica", "confronto", "contro", "top", "migliore", "raccomandato", "tendenza", "virale", "popolare", "interessante", "incredibile", "utile", "informativo", "dettagliato", "completo"]
  | "Portuguese" => ["youtube", "vídeo", "tutorial", "vlog", "como", "revisão", "explicado", "educacional", "aprender", "passo a passo", "iniciante", "avançado", "masterclass", "curso", "lição", "estratégia", "técnica", "demonstração", "passeio", "visão geral", "comparação", "versus", "top", "melhor", "recomendado", "tendência", "viral", "popular", "interessante", "incrível", "útil", "informativo", "detalhado", "abrangente"]
  | "Japanese" => ["ユーチューブ", "ビデオ", "チュートリアル", "ブログ", "方法", "レビュー", "解説", "教育", "学ぶ", "ステップバイステップ", "初心者", "上級者", "マスタークラス", "コース", "レッスン", "戦略", "テクニック", "デモンストレーション", "ガイド", "概要", "比較", "対", "トップ", "ベスト", "おすすめ", "トレンド", "バイラル", "人気", "興味深い", "素晴らしい", "役立つ", "有益", "詳細", "包括的"]
  | "Korean" => ["유튜브", "비디오", "튜토리얼", "브이로그", "방법", "리뷰", "설명", "교육", "학습", "단계별", "초보자", "고급", "마스터클래스", "코스", "레슨", "전략", "기술", "시연", "가이드", "개요", "비교", "대", "최고", "베스트", "추천", "트렌드", "바이럴", "인기", "흥미로운", "놀라운", "유용한", "정보", "자세한", "포괄적"]
  | "Chinese" => ["油管", "视频", "教程", "博客", "方法", "评论", "讲解", "教育", "学习", "一步一步", "初学者", "高级", "大师班", "课程", "课程", "策略", "技术", "演示", "导览", "概述", "比较", "对比", "热门", "最佳", "推荐", "趋势", "病毒式", "流行", "有趣", "惊人", "有用", "信息", "详细", "全面"]
  | "Russian" => ["ютуб", "видео", "урок", "влог", "как", "обзор", "объяснение", "образование", "учиться", "шаг за шагом", "начинающий", "продвинутый", "мастер-класс", "курс", "урок", "стратегия", "техника", "демонстрация", "экскурсия", "обзор", "сравнение", "против", "топ", "лучший", "рекомендуемый", "тренд", "вирусный", "популярный", "интересный", "удивительный", "полезный", "информативный", "подробный", "всеобъемлющий"]
  | "Arabic" => ["يوتيوب", "فيديو", "برنامج تعليمي", "مدونة فيديو", "كيفية", "مراجعة", "مشروح", "تعليمي", "تعلم", "خطوة بخطوة", "مبتدئ", "متقدم", "دورة متقدمة", "دورة", "درس", "استراتيجية", "تقنية", "عرض", "جولة", "نظرة عامة", "مقارنة", "مقابل", "أفضل", "موصى به", "اتجاه", "فيروسي", "شائع", "مثير للاهتمام", "مذهل", "مفيد", "معلوماتي", "مفصل", "شامل"]
  | _ => ["youtube", "video", "tutorial", "vlog", "howto", "review", "explained", "educational", "learn", "step by step", "beginner", "advanced", "masterclass", "course", "lesson", "strategy", "technique", "demonstration", "walkthrough", "overview", "comparison", "versus", "top", "best", "recommended", "trending", "viral", "popular", "interesting", "amazing", "helpful", "useful", "informative", "detailed", "comprehensive"]

/-- Title table of `seo_agents.generate_fallback_seo`: five ranked title
objects per language, rank 1 reusing the original title, with the English
entry as default.  Each entry is the JSON object the Python dict literal
builds, keys in order `rank`, `title`, `reason`. -/
def TITLES_BY_LANGUAGE (title : String) (language : String) : List Json :=
  match language with
  | "English" =>
     [Json.obj [("rank", Json.num 1), ("title", Json.str (title)), ("reason", Json.str "Original title")],
      Json.obj [("rank", Json.num 2), ("title", Json.str ("Complete Guide to " ++ title)), ("reason", Json.str "Informative")],
      Json.obj [("rank", Json.num 3), ("title", Json.str ("How to " ++ title)), ("reason", Json.str "Step-by-step guide")],
      Json.obj [("rank", Json.num 4), ("title", Json.str ("Top 10 " ++ title ++ " Tips")), ("reason", Json.str "List format")],
      Json.obj [("rank", Json.num 5), ("title", Json.str (title ++ " | Explained")), ("reason", Json.str "Educational")]]
  | "Spanish" =>
     [Json.obj [("rank", Json.num 1), ("title", Json.str (title)), ("reason", Json.str "Título original")],
      Json.obj [("rank", Json.num 2), ("title", Json.str ("Guía completa de " ++ title)), ("reason", Json.str "Informativo")],
      Json.obj [("rank", Json.num 3), ("title", Json.str ("Cómo " ++ title)), ("reason", Json.str "Guía paso a paso")],
      Json.obj [("rank", Json.num 4), ("title", Json.str ("Top 10 consejos de " ++ title)), ("reason", Json.str "Formato de lista")],
      Json.obj [("rank", Json.num 5), ("title", Json.str (title ++ " | Explicado")), ("reason", Json.str "Educativo")]]
  | "French" =>
     [Json.obj [("rank", Json.num 1), ("title", Json.str (title)), ("reason", Json.str "Titre original")],
      Json.obj [("rank", Json.num 2), ("title", Json.str ("Guide complet de " ++ title)), ("reason", Json.str "Informatif")],
      Json.obj [("rank", Json.num 3), ("title", Json.str ("Comment " ++ title)), ("reason", Json.str "Guide étape par étape")],
      Json.obj [("rank", Json.num 4), ("title", Json.str ("Top 10 conseils pour " ++ title)), ("reason", Json.str "Format liste")],
      Json.obj [("rank", Json.num 5), ("title", Json.str (title ++ " | Expliqué")), ("reason", Json.str "Éducatif")]]
  | "German" =>
     [Json.obj [("rank", Json.num 1), ("title", Json.str (title)), ("reason", Json.str "Originaltitel")],
      Json.obj [("rank", Json.num 2), ("title", Json.str ("Komplette Anleitung zu " ++ title)), ("reason", Json.str "Informativ")],
      Json.obj [("rank", Json.num 3), ("title", Json.str ("Wie man " ++ title)), ("reason", Json.str "Schritt-für-Schritt-Anleitung")],
      Json.obj [("rank", Json.num 4), ("title", Json.str ("Top 10 Tipps zu " ++ title)), ("reason", Json.str "Listenformat")],
      Json.obj [("rank", Json.num 5), ("title", Json.str (title ++ " | Erklärt")), ("reason", Json.str "Lehrreich")]]
  | "Italian" =>
     [Json.obj [("rank", Json.num 1), ("title", Json.str (title)), ("reason", Json.str "Titolo originale")],
      Json.obj [("rank", Json.num 2), ("title", Json.str ("Guida completa a " ++ title)), ("reason", Json.str "Informativo")],
      Json.obj [("rank", Json.num 3), ("title", Json.str ("Come " ++ title)), ("reason", Json.str "Guida passo passo")],
      Json.obj [("rank", Json.num 4), ("title", Json.str ("Top 10 consigli su " ++ title)), ("reason", Json.str "Formato elenco")],
      Json.obj [("rank", Json.num 5), ("title", Json.str (title ++ " | Spiegato")), ("reason", Json.str "Educativo")]]
  | "Portuguese" =>
     [Json.obj [("rank", Json.num 1), ("title", Json.str (title)), ("reason", Json.str "Título original")],
      Json.obj [("rank", Json.num 2), ("title", Json.str ("Guia completo de " ++ title)), ("reason", Json.str "Informativo")],
      Json.obj [("rank", Json.num 3), ("title", Json.str ("Como " ++ title)), ("reason", Json.str "Guia passo a passo")],
      Json.obj [("rank", Json.num 4), ("title", Json.str ("Top 10 dicas de " ++ title)), ("reason", Json.str "Formato de lista")],
      Json.obj [("rank", Json.num 5), ("title", Json.str (title ++ " | Explicado")), ("reason", Json.str "Educativo")]]
  | "Japanese" =>
     [Json.obj [("rank", Json.num 1), ("title", Json.str (title)), ("reason", Json.str "オリジナルタイトル")],
      Json.obj [("rank", Json.num 2), ("title", Json.str (title ++ "の完全ガイド")), ("reason", Json.str "情報提供")],
      Json.obj [("rank", Json.num 3), ("title", Json.str (title ++ "の方法")), ("reason", Json.str "ステップバイステップガイド")],
      Json.obj [("rank", Json.num 4), ("title", Json.str (title ++ "のトップ10のコツ")), ("reason", Json.str "リスト形式")],
      Json.obj [("rank", Json.num 5), ("title", Json.str (title ++ " | 解説")), ("reason", Json.str "教育的")]]
  | "Korean" =>
     [Json.obj [("rank", Json.num 1), ("title", Json.str (title)), ("reason", Json.str "원제목")],
      Json.obj [("rank", Json.num 2), ("title", Json.str (title ++ " 완벽 가이드")), ("reason", Json.str "정보 제공")],
      Json.obj [("rank", Json.num 3), ("title", Json.str (title ++ " 하는 방법")), ("reason", Json.str "단계별 가이드")],
      Json.obj [("rank", Json.num 4), ("title", Json.str (title ++ "의 Top 10 팁")), ("reason", Json.str "리스트 형식")],
      Json.obj [("rank", Json.num 5), ("title", Json.str (title ++ " | 설명")), ("reason", Json.str "교육적")]]
  | "Chinese" =>
     [Json.obj [("rank", Json.num 1), ("title", Json.str (title)), ("reason", Json.str "原始标题")],
      Json.obj [("rank", Json.num 2), ("title", Json.str (title ++ "完整指南")), ("reason", Json.str "信息丰富")],
      Json.obj [("rank", Json.num 3), ("title", Json.str ("如何" ++ title)), ("reason", Json.str "分步指南")],
      Json.obj [("rank", Json.num 4), ("title", Json.str (title ++ "的十大技巧")), ("reason", Json.str "列表格式")],
      Json.obj [("rank", Json.num 5), ("title", Json.str (title ++ " | 讲解")), ("reason", Json.str "教育性")]]
  | "Russian" =>
     [Json.obj [("rank", Json.num 1), ("title", Json.str (title)), ("reason", Json.str "Оригинальное название")],
      Json.obj [("rank", Json.num 2), ("title", Json.str ("Полное руководство по " ++ title)), ("reason", Json.str "Информативно")],
      Json.obj [("rank", Json.num 3), ("title", Json.str ("Как " ++ title)), ("reason", Json.str "Пошаговое руководство")],
      Json.obj [("rank", Json.num 4), ("title", Json.str ("Топ 10 советов по " ++ title)), ("reason", Json.str "Формат списка")],
      Json.obj [("rank", Json.num 5), ("title", Json.str (title ++ " | Объяснение")), ("reason", Json.str "Образовательно")]]
  | "Arabic" =>
     [Json.obj [("rank", Json.num 1), ("title", Json.str (title)), ("reason", Json.str "العنوان الأصلي")],
      Json.obj [("rank", Json.num 2), ("title", Json.str ("الدليل الكامل لـ " ++ title)), ("reason", Json.str "معلوماتي")],
      Json.obj [("rank", Json.num 3), ("title", Json.str ("كيفية " ++ title)), ("reason", Json.str "دليل خطوة بخطوة")],
      Json.obj [("rank", Json.num 4), ("title", Json.str ("أفضل 10 نصائح لـ " ++ title)), ("reason", Json.str "تنسيق قائمة")],
      Json.obj [("rank", Json.num 5), ("title", Json.str (title ++ " | شرح")), ("reason", Json.str "تعليمي")]]
  | _ =>
     [Json.obj [("rank", Json.num 1), ("title", Json.str (title)), ("reason", Json.str "Original title")],
      Json.obj [("rank", Json.num 2), ("title", Json.str ("Complete Guide to " ++ title)), ("reason", Json.str "Informative")],
      Json.obj [("rank", Json.num 3), ("title", Json.str ("How to " ++ title)), ("reason", Json.str "Step-by-step guide")],
      Json.obj [("rank", Json.num 4), ("title", Json.str ("Top 10 " ++ title ++ " Tips")), ("reason", Json.str "List format")],
      Json.obj [("rank", Json.num 5), ("title", Json.str (title ++ " | Explained")), ("reason", Json.str "Educational")]]

/-- Single-quote character, spliced into fixed texts that contain one. -/
def squote : String := String.mk [Char.ofNat 39]

/-- Model of `seo_agents.generate_fallback_seo`: the deterministic fallback
SEO payload, a JSON object with keys in the order of the Python dict
literal; `tags` is the language table truncated by `[:35]`, `timestamps` is
the single introduction entry. -/
def generate_fallback_seo (title platform language : String) : Json :=
  Json.obj
    [("tags", Json.arr (((TAGS_BY_LANGUAGE language).take 35).map Json.str)),
     ("description", Json.str ("This " ++ platform ++ " video about " ++ squote ++ title ++ squote
        ++ " provides valuable insights. Watch and enjoy!\n\n#YouTube #Tutorial")),
     ("timestamps", Json.arr [Json.obj [("time", Json.str "00:00"), ("description", Json.str "Introduction")]]),
     ("titles", Json.arr (TITLES_BY_LANGUAGE title language))]

/-- Model of `seo_agents.generate_fallback_thumbnails`: a fixed payload of
three concepts; neither argument is read by the function body. -/
def generate_fallback_thumbnails (platform language : String) : Json :=
  Json.obj
    [("thumbnail_concepts", Json.arr
      [Json.obj
        [("concept", Json.str "Professional YouTube thumbnail with text overlay"),
         ("text_overlay", Json.str "Ultimate Guide"),
         ("colors", Json.arr [Json.str "#FF0000", Json.str "#FFFFFF", Json.str "#000000"]),
         ("focal_point", Json.str "Center of the image with clear subject"),
         ("tone", Json.str "Professional and educational"),
         ("composition", Json.str "Subject on the right, text on the left with high contrast")],
       Json.obj
        [("concept", Json.str "Emotional reaction thumbnail with facial expression"),
         ("text_overlay", Json.str ("You Won" ++ squote ++ "t Believe This!")),
         ("colors", Json.arr [Json.str "#FF0000", Json.str "#FFFFFF", Json.str "#000000"]),
         ("focal_point", Json.str "Close-up of surprised face or reaction"),
         ("tone", Json.str "Surprising and emotionally engaging"),
         ("composition", Json.str "Face takes up 40% of thumbnail with text above")],
       Json.obj
        [("concept", Json.str "Before/After comparison thumbnail"),
         ("text_overlay", Json.str "Transformations"),
         ("colors", Json.arr [Json.str "#FF0000", Json.str "#FFFFFF", Json.str "#000000"]),
         ("focal_point", Json.str "Split screen showing strong contrast"),
         ("tone", Json.str "Impressive and motivational"),
         ("composition", Json.str "50/50 split with arrow or divider in the middle")]])]

/-- Video metadata dictionary as consumed by the pipeline; `none` models an
absent key, read through `.get(key, default)`. -/
structure Metadata where
  platform : Option String
  title : Option String
  description : Option String
  transcript : Option String
  duration : Nat

/-- Stub of the LLM Gateway: the completion text produced at each of the four
call sites of `run_seo_analysis_with_langchain`, with `.error` modelling a
raised completion failure. -/
structure Gateway where
  analysis : Except Unit String
  seo : Except Unit String
  topup : Except Unit String
  thumb : Except Unit String

/-- Caller-visible failures of the pipeline: the missing-credential check and
an exception escaping one of the completion calls. -/
inductive PipelineError where
  | missingKey : PipelineError
  | gatewayFailure : PipelineError
deriving DecidableEq

/-- Aggregate result dictionary returned by
`run_seo_analysis_with_langchain`. -/
structure PipelineResult where
  seo : Json
  analysis : String
  thumbnails : Json

/-- Python `len()` on a JSON value; `none` models the `TypeError` raised on
numbers, booleans and `None`. -/
def pyLen : Json → Option Nat
  | .str s => some s.length
  | .arr xs => some xs.length
  | .obj ms => some ms.length
  | _ => none

/-- Python `dict.get(k, default)` on an insertion-ordered member list. -/
def dictGet (ms : List (String × Json)) (k : String) (default : Json) : Json :=
  match ms.find? (fun m => m.1 == k) with
  | some m => m.2
  | none => default

/-- Outcome of the top-up call inside `ensure_35_tags` as driven by the
Gateway stub: a completion failure or an unparsable response raises inside
the `try` (`.raised`); otherwise the parsed JSON value comes back. -/
def topUpOutcome (g : Except Unit String) : TopUpOutcome :=
  match g with
  | .error _ => .raised
  | .ok t =>
    match parse_langchain_output t.toList with
    | none => .raised
    | some j => .parsed j

/-- Tag-count enforcement step of `run_seo_analysis_with_langchain` on the
parsed SEO value `j` (the body of the `try` after the parse): reads
`seo_data.get("tags", [])`, calls `ensure_35_tags` when its `len` is not 35
and stores the result back.  `none` models an exception escaping to the
outer `except` (and hence the fallback): a non-dict `seo_data`
(`AttributeError` on `.get`), a `len()` `TypeError`, and the
`AttributeError`/`TypeError` paths of `ensure_35_tags` when the tags value
is itself a string or dict (appending to those raises; a string longer than
35 is sliced instead, and a scan that finishes without touching them leaves
them unchanged). -/
def normalizeSeoTags (j : Json) (topup : TopUpOutcome) : Option Json :=
  match j with
  | .obj ms =>
    let tagsVal := dictGet ms "tags" (.arr [])
    match pyLen tagsVal with
    | none => none
    | some n =>
      if n = 35 then some j
      else
        match tagsVal with
        | .arr xs => some (.obj (objInsert ms "tags" (.arr (ensure_35_tags xs topup))))
        | .str s =>
          if n < 35 then
            match topup with
            | .parsed (.obj ms2) =>
              match firstListValue ms2 with
              | some _ => none
              | none => some (.obj (objInsert ms "tags" (.str s)))
            | .parsed (.str s2) =>
              if s2 = "" then some (.obj (objInsert ms "tags" (.str s))) else none
            | _ => none
          else some (.obj (objInsert ms "tags" (.str (String.mk (s.toList.take 35)))))
        | .obj inner =>
          if n < 35 then
            match topup with
            | .parsed (.obj ms2) =>
              match firstListValue ms2 with
              | some _ => none
              | none => some (.obj (objInsert ms "tags" (.obj inner)))
            | .parsed (.str s2) =>
              if s2 = "" then some (.obj (objInsert ms "tags" (.obj inner))) else none
            | _ => none
          else none
        | _ => none
  | _ => none

/-- Model of `seo_agents.run_seo_analysis_with_langchain`.  The API-key check
comes first; each of the three main completion calls sits outside any
`try`, so a completion failure there escapes to the caller; the SEO parse
and tag normalization are guarded by a `try` whose `except` substitutes
`generate_fallback_seo`, and the thumbnail parse by one substituting
`generate_fallback_thumbnails`. -/
def run_seo_analysis_with_langchain (gw : Gateway) (hasApiKey : Bool)
    (video_metadata : Metadata) (language : String) : Except PipelineError PipelineResult :=
  if !hasApiKey then .error .missingKey
  else
    let platform := video_metadata.platform.getD "YouTube"
    let title := video_metadata.title.getD ""
    match gw.analysis with
    | .error _ => .error .gatewayFailure
    | .ok analysis_result =>
      match gw.seo with
      | .error _ => .error .gatewayFailure
      | .ok seo_result =>
        let seo_data : Json :=
          match parse_langchain_output seo_result.toList with
          | none => generate_fallback_seo title platform language
          | some j =>
            match normalizeSeoTags j (topUpOutcome gw.topup) with
            | some j2 => j2
            | none => generate_fallback_seo title platform language
        match gw.thumb with
        | .error _ => .error .gatewayFailure
        | .ok thumbnail_result =>
          let thumbnail_data : Json :=
            match parse_langchain_output thumbnail_result.toList with
            | none => generate_fallback_thumbnails platform language
            | some j => j
          .ok { seo := seo_data, analysis := analysis_result, thumbnails := thumbnail_data }

/-- Member of a JSON object (observation helper; `null` when absent or not an
object). -/
def getField (j : Json) (k : String) : Json :=
  match j with
  | .obj ms => dictGet ms k .null
  | _ => .null

/-- Elements of a JSON array (observation helper; empty when not an array). -/
def getArr (j : Json) : List Json :=
  match j with
  | .arr xs => xs
  | _ => []

/-! ### Theorems -/

/-- Padding always reaches index 34: `related_tag_{i}` for `i` from `start`
to 34 is `35 - start` entries. -/
theorem placeholderTags_length (start : Nat) : (placeholderTags start).length = 35 - start := by
  simp [placeholderTags]

/-- C1 (amended).  The normalizer never returns more than 35 tags, and it
returns exactly 35 whenever the top-up raises or cannot be parsed (the
placeholder-padding path, illustrated by the last conjunct) and whenever the
parsed top-up list has at least 35 elements; a successfully parsed top-up
list shorter than the missing count, however, leaves the result below 35
(see the counterexample). -/
theorem c1_tag_count_amended (tags : List Json) (topup : TopUpOutcome) :
    (ensure_35_tags tags topup).length ≤ 35
    ∧ (ensure_35_tags tags .raised).length = 35
    ∧ (ensure_35_tags tags (.parsed (Json.arr (List.replicate 35 (Json.str "x"))))).length = 35
    ∧ ensure_35_tags (List.replicate 34 (Json.str "t")) .raised
        = List.replicate 34 (Json.str "t") ++ [Json.str "related_tag_34"] := by
  refine ⟨?_, ?_, ?_, rfl⟩
  · unfold ensure_35_tags
    rcases lt_trichotomy tags.length 35 with h | h | h
    · cases topup with
      | raised => simp [h, Nat.ne_of_lt h, placeholderTags_length]; omega
      | parsed j =>
        cases j with
        | arr xs => simp [h, Nat.ne_of_lt h]; omega
        | obj ms =>
          cases hf : firstListValue ms with
          | none => simp [h, Nat.ne_of_lt h, hf]; omega
          | some xs => simp [h, Nat.ne_of_lt h, hf]; omega
        | str s =>
          by_cases hs : s = "" <;>
            simp [h, Nat.ne_of_lt h, hs, placeholderTags_length] <;> omega
        | null => simp [h, Nat.ne_of_lt h, placeholderTags_length]; omega
        | bool b => simp [h, Nat.ne_of_lt h, placeholderTags_length]; omega
        | num n => simp [h, Nat.ne_of_lt h, placeholderTags_length]; omega
    · simp [h]
    · simp [Nat.ne_of_gt h, Nat.lt_asymm h]
  · unfold ensure_35_tags
    rcases lt_trichotomy tags.length 35 with h | h | h
    · simp [h, Nat.ne_of_lt h, placeholderTags_length]; omega
    · simp [h]
    · simp [Nat.ne_of_gt h, Nat.lt_asymm h]; omega
  · unfold ensure_35_tags
    rcases lt_trichotomy tags.length 35 with h | h | h
    · simp [h, Nat.ne_of_lt h]; omega
    · simp [h]
    · simp [Nat.ne_of_gt h, Nat.lt_asymm h]; omega

/-- C1 (counterexample).  With 34 input tags and a top-up response that
parses to an empty JSON list, the code extends by nothing and returns 34
tags, not 35. -/
theorem c1_counterexample :
    ¬ (ensure_35_tags (List.replicate 34 (Json.str "t")) (.parsed (Json.arr []))).length = 35 := by
  decide

/-- C8 (confirmed).  Every branch of `ensure_35_tags` either truncates to
the first 35 tags or appends after the existing tags, so the first
`min(len(input), 35)` entries of the output are the first
`min(len(input), 35)` entries of the input, in order. -/
theorem c8_tag_order_preservation (tags : List Json) (topup : TopUpOutcome) :
    (ensure_35_tags tags topup).take (min tags.length 35)
      = tags.take (min tags.length 35) := by
  unfold ensure_35_tags
  rcases lt_trichotomy tags.length 35 with h | h | h
  · have hm : min tags.length 35 = tags.length := by omega
    rw [hm]
    have htake : ∀ rest : List Json, (tags ++ rest).take tags.length = tags.take tags.length := by
      intro rest
      rw [List.take_length, List.take_append_of_le_length (le_refl _), List.take_length]
    cases topup with
    | raised => simp [h, Nat.ne_of_lt h, htake]
    | parsed j =>
      cases j with
      | arr xs => simp [h, Nat.ne_of_lt h, htake]
      | obj ms =>
        cases hf : firstListValue ms with
        | none => simp [h, Nat.ne_of_lt h, hf]
        | some xs => simp [h, Nat.ne_of_lt h, hf, htake]
      | str s => by_cases hs : s = "" <;> simp [h, Nat.ne_of_lt h, hs, htake]
      | null => simp [h, Nat.ne_of_lt h, htake]
      | bool b => simp [h, Nat.ne_of_lt h, htake]
      | num n => simp [h, Nat.ne_of_lt h, htake]
  · simp [h]
  · have hm : min tags.length 35 = 35 := by omega
    simp [Nat.ne_of_gt h, Nat.lt_asymm h, hm, List.take_take]

/-- C5 (amended).  The number of timestamps the SEO prompt requests is the
truncating clamp `min(15, max(5, (duration // 60) // 2))` — `int()`
truncation, not rounding — and the four counts the spec lists hold:
0 s → 5, 600 s → 5, 3600 s → 15, 1200 s → 10. -/
theorem c5_timestamp_count_amended (duration : Nat) :
    num_timestamps duration = min 15 (max 5 (duration / 60 / 2))
    ∧ num_timestamps 0 = 5 ∧ num_timestamps 600 = 5
    ∧ num_timestamps 3600 = 15 ∧ num_timestamps 1200 = 10 := by
  refine ⟨?_, by decide, by decide, by decide, by decide⟩
  unfold num_timestamps
  by_cases h : duration / 60 > 0
  · simp [h]
  · have h0 : duration / 60 = 0 := by omega
    simp [h0]

/-- C5 (counterexample).  At duration 660 s (11 minutes) the code truncates
`int(11 / 2) = 5` while the spec formula rounds `round(11 / 2) = 6`, so the
claimed equality fails there. -/
theorem c5_counterexample :
    num_timestamps 660 = 5 ∧ spec_timestamp_count 660 = 6
    ∧ num_timestamps 660 ≠ spec_timestamp_count 660 := by
  decide

/-- C7 (confirmed).  When the fenced-block tier and the brace-slice tier
both fail to produce a JSON value, `parse_langchain_output` raises (returns
`none` in the model) instead of returning anything. -/
theorem c7_parse_raises (cs : List Char)
    (h1 : fencedTier cs = none) (h2 : braceTier cs = none) :
    parse_langchain_output cs = none := by
  unfold parse_langchain_output
  rw [h1]
  exact h2

/-- C7 witness: the spec's own input `"no json here at all"` fails both
tiers, and the theorem applies to it. -/
theorem c7_parse_raises_witness :
    fencedTier ("no json here at all".toList) = none
    ∧ braceTier ("no json here at all".toList) = none
    ∧ parse_langchain_output ("no json here at all".toList) = none :=
  ⟨rfl, rfl, c7_parse_raises _ rfl rfl⟩

/-- C10 (confirmed).  The thumbnail fallback reads neither its platform nor
its language argument: any two calls agree, the payload is the fixed
English-text one with exactly 3 concepts, and every concept carries the
colors `#FF0000`, `#FFFFFF`, `#000000`. -/
theorem c10_thumbnail_fallback_constant (p1 p2 l1 l2 : String) :
    generate_fallback_thumbnails p1 l1 = generate_fallback_thumbnails p2 l2
    ∧ (getArr (getField (generate_fallback_thumbnails p1 l1) "thumbnail_concepts")).length = 3
    ∧ ∀ c ∈ getArr (getField (generate_fallback_thumbnails p1 l1) "thumbnail_concepts"),
        getField c "colors" = Json.arr [Json.str "#FF0000", Json.str "#FFFFFF", Json.str "#000000"] := by
  refine ⟨rfl, rfl, ?_⟩
  intro c hc
  fin_cases hc <;> rfl

/-- C4 (code bug).  The fallback SEO generator is deterministic (it is a
pure function of its arguments), and its English tag table does carry 35
entries — but the Arabic table has 33 and the Spanish one 34 (most
non-English tables lost entries), so `len(fallback_seo(m, L)["tags"]) == 35`
fails for those languages even though every prompt and the normalizer in
this same file insist on exactly 35 tags. -/
theorem c4_fallback_tags (t p l : String) :
    generate_fallback_seo t p l = generate_fallback_seo t p l
    ∧ (getArr (getField (generate_fallback_seo t p "English") "tags")).length = 35
    ∧ (getArr (getField (generate_fallback_seo t p "Arabic") "tags")).length = 33
    ∧ (getArr (getField (generate_fallback_seo t p "Spanish") "tags")).length = 34
    ∧ (getArr (getField (generate_fallback_seo t p "Russian") "tags")).length = 34 :=
  ⟨rfl, rfl, rfl, rfl, rfl⟩

/-- Metadata of the spec's end-to-end scenario. -/
def sleepMetadata : Metadata :=
  { platform := some "youtube", title := some "Fix Your Sleep",
    description := none, transcript := none, duration := 900 }

/-- Gateway stub answering every call with the same malformed, JSON-free
text. -/
def malformedGateway : Gateway :=
  { analysis := .ok "I cannot produce structured output for this request.",
    seo := .ok "I cannot produce structured output for this request.",
    topup := .ok "I cannot produce structured output for this request.",
    thumb := .ok "I cannot produce structured output for this request." }

/-- C3 (confirmed).  With the scenario metadata and a Gateway stub returning
malformed text for every call, the run succeeds with the English fallback
payloads: 35 tags, first title of rank 1 reusing "Fix Your Sleep", and 3
thumbnail concepts of 3 colors each. -/
theorem c3_end_to_end :
    run_seo_analysis_with_langchain malformedGateway true sleepMetadata "English"
      = .ok { seo := generate_fallback_seo "Fix Your Sleep" "youtube" "English",
              analysis := "I cannot produce structured output for this request.",
              thumbnails := generate_fallback_thumbnails "youtube" "English" }
    ∧ (getArr (getField (generate_fallback_seo "Fix Your Sleep" "youtube" "English") "tags")).length = 35
    ∧ getField ((getArr (getField (generate_fallback_seo "Fix Your Sleep" "youtube" "English") "titles")).headD .null) "rank"
        = Json.num 1
    ∧ getField ((getArr (getField (generate_fallback_seo "Fix Your Sleep" "youtube" "English") "titles")).headD .null) "title"
        = Json.str "Fix Your Sleep"
    ∧ (getArr (getField (generate_fallback_thumbnails "youtube" "English") "thumbnail_concepts")).length = 3
    ∧ ∀ c ∈ getArr (getField (generate_fallback_thumbnails "youtube" "English") "thumbnail_concepts"),
        (getArr (getField c "colors")).length = 3 := by
  refine ⟨rfl, rfl, rfl, rfl, rfl, ?_⟩
  intro c hc
  fin_cases hc <;> rfl

/-- Rank fields of the five fallback titles, in order, for any language. -/
theorem fallback_title_ranks (title language : String) :
    (TITLES_BY_LANGUAGE title language).map (fun t => getField t "rank")
      = [Json.num 1, Json.num 2, Json.num 3, Json.num 4, Json.num 5] := by
  unfold TITLES_BY_LANGUAGE
  split <;> rfl

/-- C9 (amended).  Rank monotonicity `titles[i].rank == i+1` holds for every
fallback-generated SeoResult, in every language (the ranks are literally
1..5 in each table); it is not enforced on successfully parsed LLM output,
which passes through unvalidated (see the counterexample). -/
theorem c9_fallback_rank_monotonic (title platform language : String) :
    (getArr (getField (generate_fallback_seo title platform language) "titles")).map
        (fun t => getField t "rank")
      = [Json.num 1, Json.num 2, Json.num 3, Json.num 4, Json.num 5] :=
  fallback_title_ranks title language

/-- Parsed SEO value whose single title carries rank 5. -/
def rankFiveSeo : Json :=
  Json.obj
    [("tags", Json.arr (List.replicate 35 (Json.str "t"))),
     ("description", Json.str "d"),
     ("timestamps", Json.arr []),
     ("titles", Json.arr [Json.obj
        [("rank", Json.num 5), ("title", Json.str "X"), ("reason", Json.str "r")]])]

/-- Gateway stub whose SEO response is the valid serialization of
`rankFiveSeo` and whose thumbnail response parses as an empty object. -/
def rankFiveGateway : Gateway :=
  { analysis := .ok "analysis text",
    seo := .ok (String.mk (dumps rankFiveSeo)),
    topup := .ok "unused",
    thumb := .ok (String.mk (dumps (Json.obj []))) }

set_option maxRecDepth 100000 in
/-- C9 (counterexample).  A successfully parsed SEO response with 35 tags
and a first title of rank 5 flows through the pipeline untouched: the
produced SeoResult has `titles[0].rank == 5`, not 1. -/
theorem c9_counterexample :
    run_seo_analysis_with_langchain rankFiveGateway true sleepMetadata "English"
      = .ok { seo := rankFiveSeo, analysis := "analysis text", thumbnails := Json.obj [] }
    ∧ getField ((getArr (getField rankFiveSeo "titles")).headD .null) "rank" = Json.num 5
    ∧ Json.num 5 ≠ Json.num 1 := by
  refine ⟨rfl, rfl, ?_⟩
  simp

/-- Gateway stub whose SEO completion call raises. -/
def seoFailureGateway : Gateway :=
  { analysis := .ok "analysis text", seo := .error (),
    topup := .ok "unused", thumb := .ok "unused" }

/-- C2 (counterexample).  A Gateway completion failure at the SEO stage is
not recovered by the fallback: `seo_chain.run` sits outside the `try`, so
the exception escapes to the caller even though the credential is present
and the URL was fine. -/
theorem c2_counterexample :
    run_seo_analysis_with_langchain seoFailureGateway true sleepMetadata "English"
      = .error .gatewayFailure := rfl

/-- C2 (amended).  Only parse failures are recovered locally: the run
succeeds exactly when the credential is present and the analysis, SEO and
thumbnail completion calls all return text (a top-up completion failure is
caught inside `ensure_35_tags` and never escapes); a missing credential is
reported first, and a completion failure at any of the three main stages is
surfaced to the caller. -/
theorem c2_failure_surface (gw : Gateway) (md : Metadata) (lang : String) :
    run_seo_analysis_with_langchain gw false md lang = .error .missingKey
    ∧ ((∃ r, run_seo_analysis_with_langchain gw true md lang = .ok r)
        ↔ (∃ a, gw.analysis = .ok a) ∧ (∃ s, gw.seo = .ok s) ∧ (∃ t, gw.thumb = .ok t)) := by
  constructor
  · rfl
  · obtain ⟨a, s, u, t⟩ := gw
    cases a <;> cases s <;> cases t <;>
      simp [run_seo_analysis_with_langchain]

/-- Modelled from the spec: the `fence_wrap` of the parser round-trip
property, putting a serialization inside a ```json fenced code block. -/
def fence_wrap (cs : List Char) : List Char :=
  fenceOpen ++ '\n' :: cs ++ '\n' :: fenceBar

/-- Unfolding equation of `firstOccur` at a cons. -/
theorem firstOccur_cons (pat : List Char) (c : Char) (cs : List Char) :
    firstOccur pat (c :: cs)
      = if pat.isPrefixOf (c :: cs) then some 0 else (firstOccur pat cs).map (· + 1) := rfl

/-- Unfolding equation of `pyFind` at a cons. -/
theorem pyFind_cons (c d : Char) (cs : List Char) :
    pyFind c (d :: cs) = if d == c then some 0 else (pyFind c cs).map (· + 1) := rfl

/-- Unfolding equation of `pyRFind` at a cons. -/
theorem pyRFind_cons (c d : Char) (cs : List Char) :
    pyRFind c (d :: cs)
      = match pyRFind c cs with
        | some i => some (i + 1)
        | none => if d == c then some 0 else none := rfl

/-- A pattern whose first character occurs nowhere in the text never
occurs. -/
theorem firstOccur_none_of_head_not_mem (c : Char) (pat cs : List Char) (h : c ∉ cs) :
    firstOccur (c :: pat) cs = none := by
  induction cs with
  | nil => rfl
  | cons d cs ih =>
    simp only [List.mem_cons, not_or] at h
    have hpre : (c :: pat).isPrefixOf (d :: cs) = false := by
      simp [List.isPrefixOf, h.1]
    rw [firstOccur_cons, hpre, ih h.2]
    rfl

/-- First occurrence of a pattern laid into the text right after a stretch
free of the pattern's first character. -/
theorem firstOccur_at_marker (c : Char) (pat mid tail : List Char) (h : c ∉ mid) :
    firstOccur (c :: pat) (mid ++ (c :: pat) ++ tail) = some mid.length := by
  induction mid with
  | nil =>
    have hpre : (c :: pat).isPrefixOf (c :: (pat ++ tail)) = true := by
      rw [List.isPrefixOf_iff_prefix]
      rw [← List.cons_append]
      exact List.prefix_append _ _
    rw [List.nil_append, List.cons_append, firstOccur_cons, hpre]
    rfl
  | cons d mid ih =>
    simp only [List.mem_cons, not_or] at h
    have hpre : (c :: pat).isPrefixOf (d :: (mid ++ (c :: pat) ++ tail)) = false := by
      have : (c == d) = false := by
        rw [beq_eq_false_iff_ne]
        exact h.1
      simp [List.isPrefixOf, this]
    rw [show (d :: mid) ++ (c :: pat) ++ tail = d :: (mid ++ (c :: pat) ++ tail) by simp]
    rw [firstOccur_cons, hpre]
    rw [if_neg (by simp)]
    rw [ih h.2]
    rfl

/-- Characters absent from a leading stretch are first found past it. -/
theorem pyFind_past_stretch (c : Char) (p l : List Char) (h : c ∉ p) :
    pyFind c (p ++ c :: l) = some p.length := by
  induction p with
  | nil => simp [pyFind_cons]
  | cons d p ih =>
    simp only [List.mem_cons, not_or] at h
    have hcd : (d == c) = false := by
      rw [beq_eq_false_iff_ne]
      intro he
      exact h.1 he.symm
    rw [List.cons_append, pyFind_cons, hcd]
    rw [if_neg (by simp)]
    rw [ih h.2]
    rfl

/-- Absent character: `rfind` fails. -/
theorem pyRFind_none_of_not_mem (c : Char) (l : List Char) (h : c ∉ l) :
    pyRFind c l = none := by
  induction l with
  | nil => rfl
  | cons d l ih =>
    simp only [List.mem_cons, not_or] at h
    have hcd : (d == c) = false := by
      rw [beq_eq_false_iff_ne]
      intro he
      exact h.1 he.symm
    rw [pyRFind_cons, ih h.2, hcd]
    simp

/-- A trailing stretch free of the character does not move `rfind`. -/
theorem pyRFind_append_free (c : Char) (l q : List Char) (h : c ∉ q) :
    pyRFind c (l ++ q) = pyRFind c l := by
  induction l with
  | nil =>
    rw [List.nil_append, pyRFind_none_of_not_mem c q h]
    rfl
  | cons d l ih =>
    rw [List.cons_append, pyRFind_cons, pyRFind_cons, ih]

/-- The character closing the list is its own last occurrence. -/
theorem pyRFind_closing (c : Char) (l : List Char) :
    pyRFind c (l ++ [c]) = some l.length := by
  induction l with
  | nil => simp [pyRFind_cons, pyRFind]
  | cons d l ih =>
    rw [List.cons_append, pyRFind_cons, ih]
    rfl

/-- Unfolding of `braceTier` when both brace searches succeed. -/
theorem braceTier_of_found (cs : List Char) (i j : Nat)
    (hf : pyFind '\x7b' cs = some i) (hr : pyRFind '\x7d' cs = some j) :
    braceTier cs = if i < j then loads ((cs.drop i).take (j + 1 - i)) else none := by
  unfold braceTier
  rw [hf, hr]

/-- Whitespace-trimming of a serialization framed by single newlines: the
braces at the serialization's ends stop the trim. -/
theorem trimPy_newline_frame (body : List Char) :
    trimPy ('\n' :: ('\x7b' :: body ++ ['\x7d']) ++ ['\n']) = '\x7b' :: body ++ ['\x7d'] := by
  have h1 : ∀ l : List Char, List.dropWhile isPySpace ('\x7b' :: l) = '\x7b' :: l := by
    intro l
    rw [List.dropWhile_cons, show isPySpace '\x7b' = false from rfl]
    simp
  have h2 : ∀ l : List Char, List.dropWhile isPySpace ('\x7d' :: l) = '\x7d' :: l := by
    intro l
    rw [List.dropWhile_cons, show isPySpace '\x7d' = false from rfl]
    simp
  have h3 : ∀ l : List Char, List.dropWhile isPySpace ('\n' :: l) = List.dropWhile isPySpace l := by
    intro l
    rw [List.dropWhile_cons, show isPySpace '\n' = true from rfl]
    simp
  unfold trimPy
  rw [show ('\n' :: ('\x7b' :: body ++ ['\x7d']) ++ ['\n'] : List Char)
        = '\n' :: ('\x7b' :: (body ++ ['\x7d'] ++ ['\n'])) by simp]
  rw [h3, h1]
  rw [show ('\x7b' :: (body ++ ['\x7d'] ++ ['\n'])).reverse
        = '\n' :: ('\x7d' :: (body.reverse ++ ['\x7b'])) by simp]
  rw [h3, h2]
  rw [show ('\x7d' :: (body.reverse ++ ['\x7b'])).reverse = '\x7b' :: body ++ ['\x7d'] by simp]

/-- C6 (amended).  The two extraction round trips hold for every JSON object
whose serialization is free of backticks (so that no fence marker can arise
inside it), with brace- and backtick-free prose: the fenced wrap is found by
the fence tier and trimmed back to the exact serialization, and prose
framing is stripped by the first-`\x7b`-to-last-`\x7d` slice.  A backtick
fence inside a string value breaks the prose direction (see the
counterexample). -/
theorem c6_roundtrip_amended (ms : List (String × Json)) (p q : List Char)
    (hload : loads (dumps (Json.obj ms)) = some (Json.obj ms))
    (htick : '`' ∉ dumps (Json.obj ms))
    (hpo : '\x7b' ∉ p) (hpt : '`' ∉ p)
    (hqc : '\x7d' ∉ q) (hqt : '`' ∉ q) :
    parse_langchain_output (fence_wrap (dumps (Json.obj ms))) = some (Json.obj ms)
    ∧ parse_langchain_output (p ++ dumps (Json.obj ms) ++ q) = some (Json.obj ms) := by
  have hs : dumps (Json.obj ms) = '\x7b' :: dumpsObj ms ++ ['\x7d'] := rfl
  set body := dumpsObj ms with hbody
  constructor
  · -- fenced direction: tier 1 finds the block and trims it back to the
    -- serialization
    have h0 : firstOccur fenceOpen (fence_wrap (dumps (Json.obj ms))) = some 0 := by
      rw [fence_wrap, fenceOpen]
      rfl
    have hdrop : (fence_wrap (dumps (Json.obj ms))).drop (0 + 7)
        = '\n' :: dumps (Json.obj ms) ++ '\n' :: fenceBar := by
      rw [fence_wrap, fenceOpen]
      rfl
    have hmid : '`' ∉ ('\n' :: dumps (Json.obj ms) ++ ['\n']) := by
      intro hm
      rcases List.mem_cons.mp hm with he | hm2
      · exact absurd he (by decide)
      · rcases List.mem_append.mp hm2 with hm3 | he
        · exact htick hm3
        · exact absurd (List.mem_singleton.mp he) (by decide)
    have hocc : firstOccur fenceBar ('\n' :: dumps (Json.obj ms) ++ '\n' :: fenceBar)
        = some (dumps (Json.obj ms)).length.succ.succ := by
      have := firstOccur_at_marker '`' ['`', '`'] ('\n' :: dumps (Json.obj ms) ++ ['\n']) [] hmid
      rw [show ('\n' :: dumps (Json.obj ms) ++ ['\n']) ++ ('`' :: ['`', '`']) ++ []
            = '\n' :: dumps (Json.obj ms) ++ '\n' :: ('`' :: ['`', '`']) by simp] at this
      rw [show fenceBar = '`' :: ['`', '`'] from rfl, this]
      simp [Nat.succ_eq_add_one]
    have htake : ('\n' :: dumps (Json.obj ms) ++ '\n' :: fenceBar).take
          (dumps (Json.obj ms)).length.succ.succ
        = '\n' :: dumps (Json.obj ms) ++ ['\n'] := by
      rw [show ('\n' :: dumps (Json.obj ms) ++ '\n' :: fenceBar)
            = ('\n' :: dumps (Json.obj ms) ++ ['\n']) ++ fenceBar by simp]
      rw [show (dumps (Json.obj ms)).length.succ.succ
            = ('\n' :: dumps (Json.obj ms) ++ ['\n']).length by simp]
      exact List.take_left _ _
    have htrim : trimPy ('\n' :: dumps (Json.obj ms) ++ ['\n']) = dumps (Json.obj ms) := by
      rw [hs]
      exact trimPy_newline_frame body
    unfold parse_langchain_output fencedTier extractFenced
    rw [h0]
    simp only
    rw [hdrop, hocc]
    simp only
    rw [htake, htrim, hload]
  · -- prose direction: tier 1 never fires (no backtick anywhere), tier 2
    -- slices exactly the serialization
    have htext : '`' ∉ (p ++ dumps (Json.obj ms) ++ q) := by
      intro hm
      rcases List.mem_append.mp hm with hm2 | hmq
      · rcases List.mem_append.mp hm2 with hmp | hms
        · exact hpt hmp
        · exact htick hms
      · exact hqt hmq
    have hfence : firstOccur fenceOpen (p ++ dumps (Json.obj ms) ++ q) = none := by
      rw [show fenceOpen = '`' :: ['`', '`', 'j', 's', 'o', 'n'] from rfl]
      exact firstOccur_none_of_head_not_mem _ _ _ htext
    have hfind : pyFind '\x7b' (p ++ dumps (Json.obj ms) ++ q) = some p.length := by
      rw [hs, List.append_assoc]
      rw [show '\x7b' :: body ++ ['\x7d'] ++ q = '\x7b' :: (body ++ ['\x7d'] ++ q) by simp]
      exact pyFind_past_stretch _ _ _ hpo
    have hrfind : pyRFind '\x7d' (p ++ dumps (Json.obj ms) ++ q)
        = some (p.length + body.length + 1) := by
      rw [pyRFind_append_free _ _ _ hqc]
      rw [hs]
      rw [show p ++ ('\x7b' :: body ++ ['\x7d']) = (p ++ '\x7b' :: body) ++ ['\x7d'] by simp]
      rw [pyRFind_closing]
      simp [Nat.add_comm, Nat.add_assoc, Nat.add_left_comm]
    have hslice : ((p ++ dumps (Json.obj ms) ++ q).drop p.length).take
          (p.length + body.length + 1 + 1 - p.length)
        = dumps (Json.obj ms) := by
      rw [List.append_assoc, List.drop_left]
      rw [show p.length + body.length + 1 + 1 - p.length = (dumps (Json.obj ms)).length by
        rw [hs]
        simp
        omega]
      exact List.take_left _ _
    have hlt : p.length < p.length + body.length + 1 := by omega
    unfold parse_langchain_output fencedTier extractFenced
    rw [hfence]
    simp only
    rw [braceTier_of_found _ _ _ hfind hrfind, if_pos hlt, hslice, hload]

/-- C6 witness: the object `` {"a": 1} `` round-trips through both wrappers,
and the theorem's hypotheses hold for it with the spec's prose. -/
theorem c6_roundtrip_amended_witness :
    parse_langchain_output (fence_wrap (dumps (Json.obj [("a", Json.num 1)])))
      = some (Json.obj [("a", Json.num 1)])
    ∧ parse_langchain_output
        ("prose... ".toList ++ dumps (Json.obj [("a", Json.num 1)]) ++ " ...more prose".toList)
      = some (Json.obj [("a", Json.num 1)]) :=
  c6_roundtrip_amended [("a", Json.num 1)] "prose... ".toList " ...more prose".toList
    rfl (by decide) (by decide) (by decide) (by decide) (by decide)

/-- JSON object whose single string value embeds a fenced empty object. -/
def fenceTrapObj : Json := Json.obj [("a", Json.str "```json \x7b\x7d ```")]

/-- C6 (counterexample).  Surrounded by the spec's prose, the serialization
of `fenceTrapObj` is hijacked by the fence tier: the regex finds the
`` ```json `` inside the string value, captures `\x7b\x7d`, and the parse
returns the empty object instead of the original one. -/
theorem c6_counterexample :
    parse_langchain_output
        ("prose... ".toList ++ dumps fenceTrapObj ++ " ...more prose".toList)
      = some (Json.obj [])
    ∧ Json.obj [] ≠ fenceTrapObj := by
  refine ⟨rfl, ?_⟩
  simp [fenceTrapObj]

end VideoSeo
